import Mathlib

/-!
Shallow embedding of the offline audio rendering engine of
`src/utils/audioHelpers.ts` (OneSound), together with proofs checking the
natural-language specification against that code.

Conventions used throughout:
* JavaScript `number` values that the code treats exactly (sample values,
  filter parameters, gains, frequencies) are modelled as `ℚ`; decimal
  literals of the source are written as exact fractions.
* Int16 sample words are modelled as `ℤ` together with explicit range facts.
* Fallible or externally rendered computations are modelled by the data the
  code hands to the (deterministic) external renderer, so that equal model
  values mean equal rendered audio.
-/

namespace OneSound

/-! ### Sample codec (`bufferToWav`, `decodePCM`) -/

/-- Truncation toward zero of a rational, the behaviour of the JavaScript
`| 0` coercion applied to a (small) float in `bufferToWav`. -/
def truncQ (q : ℚ) : ℤ := if 0 ≤ q then ⌊q⌋ else ⌈q⌉

/-- Clamp of one float sample to `[-1, 1]`:
`Math.max(-1, Math.min(1, channels[i][pos]))` (audioHelpers.ts line 698). -/
def clampSample (s : ℚ) : ℚ := max (-1) (min 1 s)

/-- The int16 word `bufferToWav` emits for one float sample (audioHelpers.ts
lines 698-699): clamp, then
`(0.5 + sample < 0 ? sample * 32768 : sample * 32767) | 0`.
Note the source condition is `(0.5 + sample) < 0`, i.e. `sample < -0.5`. -/
def bufferToWavSample (s : ℚ) : ℤ :=
  if (1 : ℚ)/2 + clampSample s < 0 then truncQ (clampSample s * 32768)
  else truncQ (clampSample s * 32767)

/-- Scaling rule as worded by the specification (claim C1): "strictly
negative clamped values scale by 32768 and non-negative clamped values scale
by 32767, with the result truncated toward zero". -/
def specScaleSample (s : ℚ) : ℤ :=
  if clampSample s < 0 then truncQ (clampSample s * 32768)
  else truncQ (clampSample s * 32767)

/-- Scaling rule with the threshold the code actually uses: clamped values
strictly below `-1/2` scale by 32768, all others by 32767. -/
def amendedScaleSample (s : ℚ) : ℤ :=
  if clampSample s < -(1/2) then truncQ (clampSample s * 32768)
  else truncQ (clampSample s * 32767)

/-- Float value `decodePCM` produces from one little-endian int16 sample:
`dataInt16[i] / 32768.0` (audioHelpers.ts line 17). -/
def decodePCMSample (i : ℤ) : ℚ := (i : ℚ) / 32768

/-! ### Chord lookup (`CHORD_MAP`, `getChordFrequencies`) -/

/-- Result of a JavaScript property read on the `CHORD_MAP` object literal.
Property access on an object literal also finds members inherited from
`Object.prototype` (e.g. `CHORD_MAP["constructor"]` is the `Object`
function, which is truthy); those reads are modelled by `inherited`.
A read of an absent key is `undef` (falsy). -/
inductive ChordLookup where
  | triad (freqs : List ℚ)
  | inherited
  | undef
deriving DecidableEq

/-- The static chord table (audioHelpers.ts lines 463-474), frequencies in
Hz written as exact decimal fractions. -/
def CHORD_MAP : List (String × List ℚ) :=
  [("C", [26163/100, 32963/100, 392]),
   ("Cm", [26163/100, 31113/100, 392]),
   ("Dm", [29366/100, 34923/100, 440]),
   ("Em", [32963/100, 392, 49388/100]),
   ("F", [34923/100, 440, 52325/100]),
   ("Fm", [34923/100, 41530/100, 52325/100]),
   ("G", [392, 49388/100, 58733/100]),
   ("Am", [440, 52325/100, 65925/100]),
   ("Bb", [46616/100, 58733/100, 69846/100]),
   ("Unknown", [26163/100, 32963/100, 392])]

/-- Own property names of `Object.prototype` in JavaScript: keys at which a
property read on any object literal yields an inherited (truthy,
non-array) value instead of `undefined`. -/
def objectProtoKeys : List String :=
  ["constructor", "hasOwnProperty", "isPrototypeOf", "propertyIsEnumerable",
   "toLocaleString", "toString", "valueOf", "__proto__",
   "__defineGetter__", "__defineSetter__", "__lookupGetter__",
   "__lookupSetter__"]

/-- JavaScript property read `CHORD_MAP[k]`: an own key yields its triad;
otherwise a key of `Object.prototype` yields the inherited member; otherwise
the read is `undefined`. -/
def chordMapGet (k : String) : ChordLookup :=
  match List.lookup k CHORD_MAP with
  | some fs => ChordLookup.triad fs
  | none => if k ∈ objectProtoKeys then ChordLookup.inherited else ChordLookup.undef

/-- JavaScript `||` on the lookup results: keeps the left value when it is
truthy (arrays and inherited objects are truthy), otherwise the right. -/
def jsOrChord (a b : ChordLookup) : ChordLookup :=
  match a with
  | ChordLookup.undef => b
  | x => x

/-- First-occurrence removal performed by
`chordName.replace(/maj7|7|sus4|dim/, '')` (audioHelpers.ts line 477).
The four alternatives start with pairwise distinct characters, so at any
position at most one of them can match and JavaScript's ordered alternation
reduces to trying them in sequence at the leftmost matching position. -/
def stripChordExtension : List Char → List Char
  | [] => []
  | c :: cs =>
    if List.isPrefixOf ['m', 'a', 'j', '7'] (c :: cs) then cs.drop 3
    else if c = '7' then cs
    else if List.isPrefixOf ['s', 'u', 's', '4'] (c :: cs) then cs.drop 3
    else if List.isPrefixOf ['d', 'i', 'm'] (c :: cs) then cs.drop 2
    else c :: stripChordExtension cs

/-- The `root` string computed on audioHelpers.ts line 477. -/
def chordRootOf (chordName : String) : String :=
  String.mk (stripChordExtension chordName.toList)

/-- JavaScript `root.substring(0, 2)`: the first two characters (or the
whole string when it is shorter). -/
def prefixTwo (s : String) : String := String.mk (s.toList.take 2)

/-- The lookup of audioHelpers.ts lines 476-479:
`CHORD_MAP[root] || CHORD_MAP[root.substring(0,2)] || CHORD_MAP['Unknown']`. -/
def getChordFrequencies (chordName : String) : ChordLookup :=
  jsOrChord (chordMapGet (chordRootOf chordName))
    (jsOrChord (chordMapGet (prefixTwo (chordRootOf chordName)))
      (chordMapGet "Unknown"))

/-- Boolean test that a lookup result is what the specification promises:
a triad of exactly 3 strictly positive frequencies. -/
def isPositiveTriad : ChordLookup → Bool
  | ChordLookup.triad fs =>
      decide (fs.length = 3) && fs.all (fun f => decide ((0 : ℚ) < f))
  | ChordLookup.inherited => false
  | ChordLookup.undef => false

/-! ### Procedural composer (`generateProceduralBackingTrack`) -/

/-- Model of the data `generateProceduralBackingTrack` fixes for the
external `OfflineAudioContext` render (audioHelpers.ts lines 497-618):
the shape the rendered `AudioBuffer` is guaranteed to have (the context is
constructed as `new OfflineAudioContext(2, sampleRate * totalDuration,
sampleRate)` with `sampleRate = 24000` and renders exactly that many
frames), the kick scheduling period of the rhythm layer, and the chord
lookup driving each chord window of the harmony layer.  The oscillator and
noise sample data themselves are produced by the external renderer (and
depend on `Math.random`), so they are not sample-modelled. -/
structure ComposerResult where
  numberOfChannels : ℕ
  length : ℕ
  sampleRate : ℕ
  kickIntervalSeconds : ℚ
  harmonyChords : List ChordLookup
deriving DecidableEq

/-- Chord name used for window `k` of the harmony loop (audioHelpers.ts
line 568): `chordProgression[chordIndex % chordProgression.length] || 'C'`.
For an empty progression `chordIndex % 0` is `NaN`, `arr[NaN]` is
`undefined`, and `|| 'C'` yields `'C'`; an empty-string entry is falsy and
also falls back to `'C'`. -/
def chordAtWindow (chordProgression : List String) (k : ℕ) : String :=
  match chordProgression with
  | [] => "C"
  | _ :: _ =>
    let s := chordProgression.getD (k % chordProgression.length) ""
    if s = "" then "C" else s

/-- Number of iterations of the harmony loop
`for (time = 0; time < totalDuration; time += chordDuration)` computed with
exact rational arithmetic, where `chordDuration = 60 / bpm * 4`. -/
def harmonyWindowCount (bpm : ℚ) (totalDuration : ℕ) : ℕ :=
  (⌈(totalDuration : ℚ) / (60 / bpm * 4)⌉).toNat

/-- Shallow embedding of `generateProceduralBackingTrack` (audioHelpers.ts
lines 497-618).  The genre tag is consulted exactly as in the source: kick
density doubles for genres containing `"Metal"` or `"Drum"`. -/
def generateProceduralBackingTrack (bpm : ℚ) (chordProgression : List String)
    (genre : String) (totalDuration : ℕ) : ComposerResult :=
  { numberOfChannels := 2
    length := 24000 * totalDuration
    sampleRate := 24000
    kickIntervalSeconds :=
      if List.IsInfix "Metal".toList genre.toList
          ∨ List.IsInfix "Drum".toList genre.toList
      then 60 / bpm / 2 else 60 / bpm
    harmonyChords :=
      (List.range (harmonyWindowCount bpm totalDuration)).map
        (fun k => getChordFrequencies (chordAtWindow chordProgression k)) }

/-! ### Mixdown (`mixAudioTracks`) -/

/-- Multi-channel audio buffer: channel data as a total function
(channel index, frame index) to sample value. -/
structure AudioBuffer where
  numberOfChannels : ℕ
  length : ℕ
  sampleRate : ℕ
  sample : ℕ → ℕ → ℚ

/-- Signal an `AudioBufferSourceNode` without looping feeds downstream: the
buffer's content while it lasts, then silence. -/
def sourceSignal (b : AudioBuffer) (ch i : ℕ) : ℚ :=
  if i < b.length then b.sample ch i else 0

/-- Signal of the mono vocal source built from the decoded PCM list. -/
def vocalSignal (vocalPcm : List ℚ) (i : ℕ) : ℚ :=
  if h : i < vocalPcm.length then vocalPcm.get ⟨i, h⟩ else 0

/-- Shallow embedding of `mixAudioTracks` (audioHelpers.ts lines 620-663).
The context is `new OfflineAudioContext(2, max(len(vocal), len(backing)),
24000)`.  The vocal path is source → compressor(threshold -18, ratio 4) →
gain 1.1 → destination; the mono vocal is up-mixed identically to both
output channels.  The backing path is source → gain 0.85 → destination.
The external `DynamicsCompressorNode` applies a time-varying gain-reduction
factor to its input; that factor is taken as the parameter
`compReduction`, so every statement proved for all `compReduction`
holds for the factor the real node computes. -/
def mixAudioTracks (vocalPcm : List ℚ) (backing : AudioBuffer)
    (compReduction : ℕ → ℚ) : AudioBuffer :=
  { numberOfChannels := 2
    length := max vocalPcm.length backing.length
    sampleRate := 24000
    sample := fun ch i =>
      if ch < 2 ∧ i < max vocalPcm.length backing.length then
        11/10 * (compReduction i * vocalSignal vocalPcm i)
          + 17/20 * sourceSignal backing ch i
      else 0 }

/-! ### Snippet extraction (`getAudioSnippet`) -/

/-- Shape of the buffer `getAudioSnippet` renders. -/
structure SnippetShape where
  numberOfChannels : ℕ
  length : ℕ
  sampleRate : ℕ
deriving DecidableEq

/-- Shallow embedding of the snippet extraction of `getAudioSnippet`
(audioHelpers.ts lines 64-92): the decoded input buffer is re-rendered
through `new OfflineAudioContext(1, Math.min(audioBuffer.length,
audioBuffer.sampleRate * durationSeconds), audioBuffer.sampleRate)`, which
produces a buffer of exactly that length with exactly 1 channel.  The
down-mixed sample data comes from the external renderer and is not
modelled. -/
def getAudioSnippet (decoded : AudioBuffer) (durationSeconds : ℕ) : SnippetShape :=
  { numberOfChannels := 1
    length := min decoded.length (decoded.sampleRate * durationSeconds)
    sampleRate := decoded.sampleRate }

/-! ### Remaster engine (`processAudio`) -/

/-- The `AudioFilterConfig` record (audioHelpers.ts lines 323-331); absent
optional fields are `none`. -/
structure AudioFilterConfig where
  lowGain : Option ℚ
  midGain : Option ℚ
  highGain : Option ℚ
  saturation : Option Bool
  mix : Option ℚ
  spatialMix : Option ℚ
  noiseGate : Option Bool

/-- JavaScript `v || d` for an optional numeric field: `undefined` and `0`
are falsy and give the default. -/
def jsNumOr (v : Option ℚ) (d : ℚ) : ℚ :=
  match v with
  | none => d
  | some x => if x = 0 then d else x

/-- JavaScript truthiness of an optional numeric field. -/
def jsTruthy (v : Option ℚ) : Bool :=
  match v with
  | none => false
  | some x => x != 0

/-- Parameters of the fixed remaster node chain that `processAudio` wires
(audioHelpers.ts lines 364-442): highpass → low shelf → peaking → high
shelf → glue compressor → waveshaper → makeup gain → limiter. -/
structure RemasterGraph where
  highPassFreq : ℚ
  lowShelfFreq : ℚ
  lowShelfGain : ℚ
  midFreq : ℚ
  midQ : ℚ
  midGain : ℚ
  highShelfFreq : ℚ
  highShelfGain : ℚ
  glueThreshold : ℚ
  glueKnee : ℚ
  glueRatioParam : ℚ
  glueAttack : ℚ
  glueRelease : ℚ
  saturatorDrive : Option ℚ
  makeupGain : ℚ
  limiterThreshold : ℚ
  limiterKnee : ℚ
  limiterRatioParam : ℚ
  limiterAttack : ℚ
  limiterRelease : ℚ
deriving DecidableEq

/-- The node parameters `processAudio` assigns from its config
(audioHelpers.ts lines 367-427): gains are `config.x || 0`, the saturator
curve is installed (drive 100) only when `config.saturation` is truthy, and
the makeup gain is 1.0 unless `config.mix && config.mix > 0.5`, in which
case it is `1.2 + ((config.lowGain || 0) > 0 ? -0.1 : 0)`. -/
def buildRemasterGraph (config : AudioFilterConfig) : RemasterGraph :=
  { highPassFreq := 30
    lowShelfFreq := 200
    lowShelfGain := jsNumOr config.lowGain 0
    midFreq := 1800
    midQ := 4/5
    midGain := jsNumOr config.midGain 0
    highShelfFreq := 8000
    highShelfGain := jsNumOr config.highGain 0
    glueThreshold := -20
    glueKnee := 30
    glueRatioParam := 5/2
    glueAttack := 3/100
    glueRelease := 1/4
    saturatorDrive := if config.saturation.getD false then some 100 else none
    makeupGain :=
      if jsTruthy config.mix = true ∧ (1 : ℚ)/2 < config.mix.getD 0 then
        6/5 + (if 0 < jsNumOr config.lowGain 0 then -(1/10) else 0)
      else 1
    limiterThreshold := -1
    limiterKnee := 0
    limiterRatioParam := 20
    limiterAttack := 1/1000
    limiterRelease := 1/10 }

/-- The values passed to `onProgress`, in order (audioHelpers.ts lines
448-456): one call `Math.random() * 60 + 10` per 100 ms timer tick while
the render is in flight (`randomDraws` lists the `Math.random()` results of
those ticks), then a final `onProgress(100)`. -/
def progressSequence (randomDraws : List ℚ) : List ℚ :=
  randomDraws.map (fun r => r * 60 + 10) ++ [100]

/-- Everything that determines the audio `processAudio` returns: the node
graph, the decoded source buffer, and the `OfflineAudioContext` shape
(channel count, length and sample rate copied from the decoded input).
The external offline render is deterministic in these. -/
structure RemasterRender where
  graph : RemasterGraph
  source : AudioBuffer
  outNumberOfChannels : ℕ
  outLength : ℕ
  outSampleRate : ℕ

/-- Shallow embedding of `processAudio` (audioHelpers.ts lines 346-459):
the render request it issues, paired with the argument sequence it feeds
the progress callback.  The callback's only interaction with the function
is receiving those values, so it is modelled by its observed trace. -/
def processAudio (decoded : AudioBuffer) (config : AudioFilterConfig)
    (randomDraws : List ℚ) : RemasterRender × List ℚ :=
  ({ graph := buildRemasterGraph config
     source := decoded
     outNumberOfChannels := decoded.numberOfChannels
     outLength := decoded.length
     outSampleRate := decoded.sampleRate },
   progressSequence randomDraws)

/-- Boolean test that a list of rationals is monotonically non-decreasing. -/
def nondecreasingB : List ℚ → Bool
  | [] => true
  | [_] => true
  | a :: b :: t => (if a ≤ b then true else false) && nondecreasingB (b :: t)

/-- Clamp of `x` to `[lo, hi]` — the sanitisation the specification says
happens at the API boundary. -/
def clampQ (lo hi x : ℚ) : ℚ := max lo (min hi x)

/-- Concrete decoded one-second mono buffer used as a test input. -/
def exampleBuffer : AudioBuffer :=
  { numberOfChannels := 1, length := 24000, sampleRate := 24000,
    sample := fun _ _ => 0 }

/-- Concrete stereo decoded buffer used as a test input. -/
def stereoExample : AudioBuffer :=
  { numberOfChannels := 2, length := 48000, sampleRate := 24000,
    sample := fun _ _ => 0 }

/-- Config with every optional field absent. -/
def exampleConfig : AudioFilterConfig :=
  { lowGain := none, midGain := none, highGain := none, saturation := none,
    mix := none, spatialMix := none, noiseGate := none }

/-- Config whose low-shelf gain is far outside the documented -24..24 dB
range. -/
def hotConfig : AudioFilterConfig :=
  { lowGain := some 100, midGain := none, highGain := none,
    saturation := none, mix := none, spatialMix := none, noiseGate := none }

/-- Concrete three-frame stereo backing buffer used as a test input. -/
def mixExampleBacking : AudioBuffer :=
  { numberOfChannels := 2, length := 3, sampleRate := 24000,
    sample := fun _ _ => 1/4 }

/-! ### Helper lemmas -/

/-- Bounding `truncQ` from above by an integer bound on its argument. -/
theorem truncQ_le {q : ℚ} {n : ℤ} (h : q ≤ (n : ℚ)) : truncQ q ≤ n := by
  unfold truncQ
  split
  · have h2 := Int.floor_mono h
    simpa using h2
  · exact Int.ceil_le.mpr h

/-- Bounding `truncQ` from below by an integer bound on its argument. -/
theorem le_truncQ {q : ℚ} {n : ℤ} (h : (n : ℚ) ≤ q) : n ≤ truncQ q := by
  unfold truncQ
  split
  · exact Int.le_floor.mpr h
  · have h2 := Int.ceil_mono h
    simpa using h2

/-- A successful association-list lookup returns one of the stored values. -/
theorem lookup_mem_snd {l : List (String × List ℚ)} {k : String} {v : List ℚ}
    (h : List.lookup k l = some v) : v ∈ l.map Prod.snd := by
  induction l with
  | nil => simp [List.lookup] at h
  | cons p t ih =>
    obtain ⟨a, b⟩ := p
    rw [List.map_cons]
    cases hk : (k == a) with
    | true =>
      have h2 : b = v := by simpa [List.lookup, hk] using h
      subst h2
      simp
    | false =>
      have h2 : List.lookup k t = some v := by simpa [List.lookup, hk] using h
      simpa using Or.inr (ih h2)

/-- Every triad stored in `CHORD_MAP` has exactly 3 strictly positive
frequencies. -/
theorem chordMapValues_pos :
    ∀ v ∈ CHORD_MAP.map Prod.snd, isPositiveTriad (ChordLookup.triad v) = true := by
  with_unfolding_all decide

/-! ### Claim C1 -/

/-- Claim C1, counterexample: the claimed scaling rule ("strictly negative
clamped values scale by 32768") disagrees with the code at sample `-1/4`:
the code's condition `0.5 + sample < 0` scales `-1/4` by 32767, giving
`-8191`, while the claimed rule gives `-8192`. -/
theorem claim_C1_counterexample :
    bufferToWavSample (-(1/4)) = -8191 ∧ specScaleSample (-(1/4)) = -8192 := by
  with_unfolding_all decide

/-- Claim C1, amended: each emitted int16 value is obtained by clamping the
float sample to `[-1, 1]` and then scaling, where clamped values strictly
below `-1/2` (not all strictly negative values) scale by 32768 and all
others scale by 32767, truncated toward zero; the result always fits the
int16 range `[-32768, 32767]`. -/
theorem claim_C1_theorem : ∀ s : ℚ,
    bufferToWavSample s = amendedScaleSample s ∧
    -32768 ≤ bufferToWavSample s ∧ bufferToWavSample s ≤ 32767 := by
  intro s
  have hc1 : -1 ≤ clampSample s := le_max_left _ _
  have hc2 : clampSample s ≤ 1 := max_le (by norm_num) (min_le_left _ _)
  constructor
  · unfold bufferToWavSample amendedScaleSample
    by_cases hb : (1 : ℚ)/2 + clampSample s < 0
    · rw [if_pos hb, if_pos (show clampSample s < -(1/2) by linarith)]
    · rw [if_neg hb, if_neg (show ¬ clampSample s < -(1/2) by intro h3; exact hb (by linarith))]
  · unfold bufferToWavSample
    by_cases hb : (1 : ℚ)/2 + clampSample s < 0
    · rw [if_pos hb]
      constructor
      · exact le_truncQ (by push_cast; linarith)
      · exact truncQ_le (by push_cast; linarith)
    · rw [if_neg hb]
      constructor
      · exact le_truncQ (by push_cast; linarith)
      · exact truncQ_le (by push_cast; linarith)

/-! ### Claim C2 -/

/-- Claim C2, counterexample: the sample `9/10` encodes to int16 `29490`
which decodes to `29490/32768`; the round-trip error is `3/81920`, strictly
larger than the claimed bound `1/32768 = 2.5/81920`. -/
theorem claim_C2_counterexample :
    (1 : ℚ)/32768 < |decodePCMSample (bufferToWavSample (9/10)) - 9/10| := by
  with_unfolding_all decide

/-- Claim C2, amended: for every sample in `[-1, 1]`, the per-sample WAV
round trip (int16 encode via `bufferToWav`, decode via `decodePCM`)
reproduces the sample with quantization error strictly below `2/32768`
(the claimed bound `1/32768` is too tight). -/
theorem claim_C2_theorem : ∀ s : ℚ, -1 ≤ s → s ≤ 1 →
    |decodePCMSample (bufferToWavSample s) - s| < 2/32768 := by
  intro s h1 h2
  have hcl : clampSample s = s := by
    unfold clampSample
    rw [min_eq_right h2, max_eq_right h1]
  unfold decodePCMSample bufferToWavSample
  rw [hcl]
  by_cases hb : (1 : ℚ)/2 + s < 0
  · rw [if_pos hb]
    have hq : ¬ (0 : ℚ) ≤ s * 32768 := by
      intro h3
      linarith
    unfold truncQ
    rw [if_neg hq]
    have e1 : (s * 32768 : ℚ) ≤ (⌈s * 32768⌉ : ℚ) := Int.le_ceil _
    have e2 : ((⌈s * 32768⌉ : ℤ) : ℚ) < s * 32768 + 1 := Int.ceil_lt_add_one _
    rw [abs_lt]
    constructor <;> linarith
  · rw [if_neg hb]
    by_cases hq : (0 : ℚ) ≤ s * 32767
    · unfold truncQ
      rw [if_pos hq]
      have e1 : ((⌊s * 32767⌋ : ℤ) : ℚ) ≤ s * 32767 := Int.floor_le _
      have e2 : (s * 32767 : ℚ) < (⌊s * 32767⌋ : ℚ) + 1 := Int.lt_floor_add_one _
      have hs0 : (0 : ℚ) ≤ s := by linarith
      rw [abs_lt]
      constructor <;> linarith
    · unfold truncQ
      rw [if_neg hq]
      push_neg at hq hb
      have e1 : (s * 32767 : ℚ) ≤ (⌈s * 32767⌉ : ℚ) := Int.le_ceil _
      have e2 : ((⌈s * 32767⌉ : ℤ) : ℚ) < s * 32767 + 1 := Int.ceil_lt_add_one _
      have hs0 : s < 0 := by linarith
      have hge : -(1/2 : ℚ) ≤ s := by linarith
      rw [abs_lt]
      constructor <;> linarith

/-- Claim C2, witness of the amended theorem at sample `1/2`. -/
theorem claim_C2_witness :
    (-1 ≤ (1 : ℚ)/2) ∧ ((1 : ℚ)/2 ≤ 1) ∧
    |decodePCMSample (bufferToWavSample (1/2)) - 1/2| < 2/32768 :=
  ⟨by norm_num, by norm_num, claim_C2_theorem (1/2) (by norm_num) (by norm_num)⟩

/-! ### Claim C3 -/

/-- Claim C3, counterexample: `getChordFrequencies "constructor"` does not
return a triad of 3 positive frequencies.  The stripped root
`"constructor"` is not an own key of `CHORD_MAP`, but the JavaScript
property read finds the inherited (truthy) `Object.prototype.constructor`,
so the `||` chain returns that non-array value instead of any triad. -/
theorem claim_C3_counterexample :
    isPositiveTriad (getChordFrequencies "constructor") = false ∧
    getChordFrequencies "constructor" = ChordLookup.inherited := by
  with_unfolding_all decide

/-- Claim C3, amended: for every input string whose stripped root and its
two-character prefix do not collide with an inherited `Object.prototype`
property name, `getChordFrequencies` returns exactly 3 positive
frequencies and never fails: an exact chord-name match is used first,
otherwise the two-character root-prefix match, otherwise the default
triad. -/
theorem claim_C3_theorem : ∀ s : String,
    chordRootOf s ∉ objectProtoKeys →
    prefixTwo (chordRootOf s) ∉ objectProtoKeys →
    isPositiveTriad (getChordFrequencies s) = true := by
  intro s h1 h2
  unfold getChordFrequencies
  cases hl : List.lookup (chordRootOf s) CHORD_MAP with
  | some fs =>
    have e1 : chordMapGet (chordRootOf s) = ChordLookup.triad fs := by
      unfold chordMapGet
      rw [hl]
    rw [e1]
    exact chordMapValues_pos fs (lookup_mem_snd hl)
  | none =>
    have e1 : chordMapGet (chordRootOf s) = ChordLookup.undef := by
      unfold chordMapGet
      rw [hl, if_neg h1]
    rw [e1]
    show isPositiveTriad
      (jsOrChord (chordMapGet (prefixTwo (chordRootOf s))) (chordMapGet "Unknown")) = true
    cases hl2 : List.lookup (prefixTwo (chordRootOf s)) CHORD_MAP with
    | some fs =>
      have e2 : chordMapGet (prefixTwo (chordRootOf s)) = ChordLookup.triad fs := by
        unfold chordMapGet
        rw [hl2]
      rw [e2]
      exact chordMapValues_pos fs (lookup_mem_snd hl2)
    | none =>
      have e2 : chordMapGet (prefixTwo (chordRootOf s)) = ChordLookup.undef := by
        unfold chordMapGet
        rw [hl2, if_neg h2]
      rw [e2]
      with_unfolding_all decide

/-- Claim C3, witness of the amended theorem at the input `"Amaj7"` (the
extension `maj7` is stripped, the root `"A"` misses the table and the
prefix match, and the default triad is returned). -/
theorem claim_C3_witness :
    chordRootOf "Amaj7" ∉ objectProtoKeys ∧
    prefixTwo (chordRootOf "Amaj7") ∉ objectProtoKeys ∧
    isPositiveTriad (getChordFrequencies "Amaj7") = true :=
  ⟨by decide, by decide, claim_C3_theorem "Amaj7" (by decide) (by decide)⟩

/-! ### Claim C4 -/

/-- Claim C4 (confirmed): for every bpm in {60, 120, 220}, every chord
progression, every genre, and every duration T in {1, 30, 180} seconds,
`generateProceduralBackingTrack` renders a stereo buffer of exactly
`T * 24000` samples at the fixed internal sample rate of 24 kHz. -/
theorem claim_C4_theorem : ∀ (bpm : ℚ) (prog : List String) (genre : String) (T : ℕ),
    (bpm = 60 ∨ bpm = 120 ∨ bpm = 220) →
    (T = 1 ∨ T = 30 ∨ T = 180) →
    (generateProceduralBackingTrack bpm prog genre T).length = T * 24000 ∧
    (generateProceduralBackingTrack bpm prog genre T).numberOfChannels = 2 ∧
    (generateProceduralBackingTrack bpm prog genre T).sampleRate = 24000 := by
  intro bpm prog genre T _ _
  refine ⟨?_, rfl, rfl⟩
  exact Nat.mul_comm 24000 T

/-- Claim C4, witness at bpm 120, progression C-Am-F-G, genre Lo-Fi,
duration 30 s. -/
theorem claim_C4_witness :
    ((120 : ℚ) = 60 ∨ (120 : ℚ) = 120 ∨ (120 : ℚ) = 220) ∧
    ((30 : ℕ) = 1 ∨ (30 : ℕ) = 30 ∨ (30 : ℕ) = 180) ∧
    (generateProceduralBackingTrack 120 ["C", "Am", "F", "G"] "Lo-Fi" 30).length = 30 * 24000 ∧
    (generateProceduralBackingTrack 120 ["C", "Am", "F", "G"] "Lo-Fi" 30).numberOfChannels = 2 ∧
    (generateProceduralBackingTrack 120 ["C", "Am", "F", "G"] "Lo-Fi" 30).sampleRate = 24000 :=
  ⟨Or.inr (Or.inl rfl), Or.inr (Or.inl rfl),
   claim_C4_theorem 120 ["C", "Am", "F", "G"] "Lo-Fi" 30
     (Or.inr (Or.inl rfl)) (Or.inr (Or.inl rfl))⟩

/-! ### Claim C5 -/

/-- Claim C5 (confirmed): for mismatched-length vocal and stereo backing
inputs, `mixAudioTracks` renders a stereo buffer of length
`max(len(vocal), len(backing))`; beyond the vocal's length the output is
only the attenuated backing signal (the vocal contributes zero), and
beyond the backing's length it is only the processed vocal signal — the
shorter source is zero-padded, never looped or clipped.  The statement is
proved for every gain-reduction curve `g` the external vocal compressor
node may compute, hence for the one it does compute. -/
theorem claim_C5_theorem : ∀ (vocalPcm : List ℚ) (backing : AudioBuffer) (g : ℕ → ℚ),
    backing.numberOfChannels = 2 →
    backing.sampleRate = 24000 →
    (mixAudioTracks vocalPcm backing g).length = max vocalPcm.length backing.length ∧
    (mixAudioTracks vocalPcm backing g).numberOfChannels = 2 ∧
    (∀ ch i, ch < 2 → vocalPcm.length ≤ i → i < max vocalPcm.length backing.length →
      (mixAudioTracks vocalPcm backing g).sample ch i = 17/20 * sourceSignal backing ch i) ∧
    (∀ ch i, ch < 2 → backing.length ≤ i → i < max vocalPcm.length backing.length →
      (mixAudioTracks vocalPcm backing g).sample ch i
        = 11/10 * (g i * vocalSignal vocalPcm i)) := by
  intro vocalPcm backing g _ _
  refine ⟨rfl, rfl, ?_, ?_⟩
  · intro ch i hch hv hi
    show (if ch < 2 ∧ i < max vocalPcm.length backing.length then
        11/10 * (g i * vocalSignal vocalPcm i) + 17/20 * sourceSignal backing ch i
      else 0) = 17/20 * sourceSignal backing ch i
    rw [if_pos ⟨hch, hi⟩]
    have hz : vocalSignal vocalPcm i = 0 := dif_neg (Nat.not_lt.mpr hv)
    rw [hz]
    ring
  · intro ch i hch hb hi
    show (if ch < 2 ∧ i < max vocalPcm.length backing.length then
        11/10 * (g i * vocalSignal vocalPcm i) + 17/20 * sourceSignal backing ch i
      else 0) = 11/10 * (g i * vocalSignal vocalPcm i)
    rw [if_pos ⟨hch, hi⟩]
    have hz : sourceSignal backing ch i = 0 := by
      unfold sourceSignal
      rw [if_neg (Nat.not_lt.mpr hb)]
    rw [hz]
    ring

/-- Claim C5, witness: a one-sample vocal mixed against a three-frame
stereo backing, with unit compressor reduction; the output has length 3
and its tail carries only the attenuated backing. -/
theorem claim_C5_witness :
    mixExampleBacking.numberOfChannels = 2 ∧
    mixExampleBacking.sampleRate = 24000 ∧
    (mixAudioTracks [1/2] mixExampleBacking (fun _ => 1)).length
      = max ([(1 : ℚ)/2]).length mixExampleBacking.length ∧
    (mixAudioTracks [1/2] mixExampleBacking (fun _ => 1)).sample 0 2
      = 17/20 * sourceSignal mixExampleBacking 0 2 :=
  ⟨rfl, rfl,
   (claim_C5_theorem [1/2] mixExampleBacking (fun _ => 1) rfl rfl).1,
   (claim_C5_theorem [1/2] mixExampleBacking (fun _ => 1) rfl rfl).2.2.1 0 2
     (by decide) (by decide) (by decide)⟩

/-! ### Claim C6 -/

/-- Claim C6, counterexample: for a stereo decoded input,
`getAudioSnippet` renders a mono buffer — the offline context is created
with 1 channel (audioHelpers.ts line 71) — so the input's channel count is
not preserved. -/
theorem claim_C6_counterexample :
    (getAudioSnippet stereoExample 15).numberOfChannels
      ≠ stereoExample.numberOfChannels := by
  decide

/-- Claim C6, amended: for every input buffer and every maxSeconds,
`getAudioSnippet` truncates (never pads) the buffer to
`min(len, maxSeconds * sampleRate)` samples at the input's sample rate,
but always produces a mono (1-channel, down-mixed) buffer rather than
preserving the input's channel count; a very short or empty input yields
the correspondingly short or empty buffer. -/
theorem claim_C6_theorem : ∀ (decoded : AudioBuffer) (durationSeconds : ℕ),
    (getAudioSnippet decoded durationSeconds).length
      = min decoded.length (decoded.sampleRate * durationSeconds) ∧
    (getAudioSnippet decoded durationSeconds).length ≤ decoded.length ∧
    (getAudioSnippet decoded durationSeconds).numberOfChannels = 1 ∧
    (getAudioSnippet decoded durationSeconds).sampleRate = decoded.sampleRate := by
  intro decoded durationSeconds
  exact ⟨rfl, Nat.min_le_left _ _, rfl, rfl⟩

/-! ### Claim C7 -/

/-- Claim C7, counterexample: with the legitimate `Math.random()` results
`1/2` then `1/10` on two successive timer ticks, the progress values passed
to the callback are `40, 16, 100` — not monotonically non-decreasing. -/
theorem claim_C7_counterexample :
    ((0 : ℚ) ≤ 1/2 ∧ (1/2 : ℚ) < 1 ∧ (0 : ℚ) ≤ 1/10 ∧ (1/10 : ℚ) < 1) ∧
    nondecreasingB (processAudio exampleBuffer exampleConfig [1/2, 1/10]).2 = false := by
  with_unfolding_all decide

/-- Claim C7, amended: every value `processAudio` passes to the progress
callback lies in [0, 100] (the timer ticks report `random*60+10 ∈ [10,70)`
and the final call reports exactly 100), and the callback is invoked once
per 100 ms timer tick plus once at completion — not per sample; but the
reported sequence is random, not monotonically non-decreasing. -/
theorem claim_C7_theorem : ∀ (decoded : AudioBuffer) (config : AudioFilterConfig)
    (draws : List ℚ),
    (∀ r ∈ draws, 0 ≤ r ∧ r < 1) →
    (∀ p ∈ (processAudio decoded config draws).2, 0 ≤ p ∧ p ≤ 100) ∧
    (processAudio decoded config draws).2.getLast? = some 100 := by
  intro decoded config draws h
  constructor
  · intro p hp
    have hp2 : p ∈ progressSequence draws := hp
    unfold progressSequence at hp2
    rw [List.mem_append] at hp2
    rcases hp2 with hmap | hsingle
    · rw [List.mem_map] at hmap
      obtain ⟨r, hr, hrp⟩ := hmap
      obtain ⟨hr0, hr1⟩ := h r hr
      subst hrp
      constructor <;> linarith
    · rw [List.mem_singleton] at hsingle
      subst hsingle
      constructor <;> norm_num
  · exact List.getLast?_concat _

/-- Claim C7, witness of the amended theorem with a single timer tick whose
random draw is `1/2`. -/
theorem claim_C7_witness :
    (∀ r ∈ ([1/2] : List ℚ), 0 ≤ r ∧ r < 1) ∧
    (∀ p ∈ (processAudio exampleBuffer exampleConfig [1/2]).2, 0 ≤ p ∧ p ≤ 100) ∧
    (processAudio exampleBuffer exampleConfig [1/2]).2.getLast? = some 100 :=
  ⟨by with_unfolding_all decide,
   (claim_C7_theorem exampleBuffer exampleConfig [1/2] (by with_unfolding_all decide)).1,
   (claim_C7_theorem exampleBuffer exampleConfig [1/2] (by with_unfolding_all decide)).2⟩

/-! ### Claim C8 -/

/-- Claim C8 (confirmed): the render request `processAudio` issues — the
node graph, the source buffer, and the output shape, which fully determine
the rendered audio of the deterministic offline renderer — is identical
across any two runs regardless of the progress-callback interactions (the
timer draws feeding the callback): the callback is advisory only. -/
theorem claim_C8_theorem : ∀ (decoded : AudioBuffer) (config : AudioFilterConfig)
    (draws1 draws2 : List ℚ),
    (processAudio decoded config draws1).1 = (processAudio decoded config draws2).1 := by
  intro decoded config draws1 draws2
  rfl

/-! ### Claim C9 -/

/-- Claim C9, counterexample: with `lowGain = 100` (far outside the
documented -24..+24 dB range), `processAudio` sets the low-shelf node's
gain to 100 — not to the clamped value 24 — so parameters are not
sanitized at the API boundary. -/
theorem claim_C9_counterexample :
    (processAudio exampleBuffer hotConfig []).1.graph.lowShelfGain = 100 ∧
    clampQ (-24) 24 100 = 24 ∧
    ¬ (processAudio exampleBuffer hotConfig []).1.graph.lowShelfGain ≤ 24 := by
  with_unfolding_all decide

/-- Claim C9, amended: `processAudio` completes without raising for every
`FilterConfig` and never surfaces a `ParameterOutOfRange` error, but it
does not clamp out-of-range parameters: each EQ gain is forwarded verbatim
to its filter node (missing or zero fields become 0 via JavaScript `||`),
and the out-of-range `mix` value only selects the makeup-gain branch,
whose value is always one of 1, 1.1 or 1.2. -/
theorem claim_C9_theorem : ∀ config : AudioFilterConfig,
    (buildRemasterGraph config).lowShelfGain = config.lowGain.getD 0 ∧
    (buildRemasterGraph config).midGain = config.midGain.getD 0 ∧
    (buildRemasterGraph config).highShelfGain = config.highGain.getD 0 ∧
    ((buildRemasterGraph config).makeupGain = 1 ∨
     (buildRemasterGraph config).makeupGain = 11/10 ∨
     (buildRemasterGraph config).makeupGain = 6/5) := by
  intro config
  have hjs : ∀ v : Option ℚ, jsNumOr v 0 = v.getD 0 := by
    intro v
    cases v with
    | none => rfl
    | some x =>
      by_cases hx : x = 0
      · simp [jsNumOr, hx]
      · simp [jsNumOr, hx]
  refine ⟨hjs _, hjs _, hjs _, ?_⟩
  simp only [buildRemasterGraph]
  by_cases hmix : jsTruthy config.mix = true ∧ (1 : ℚ)/2 < config.mix.getD 0
  · rw [if_pos hmix]
    by_cases hlow : 0 < jsNumOr config.lowGain 0
    · rw [if_pos hlow]
      right
      left
      norm_num
    · rw [if_neg hlow]
      right
      right
      norm_num
  · rw [if_neg hmix]
    left
    rfl

/-! ### Claim C10 -/

/-- Claim C10 (confirmed): calling `generateProceduralBackingTrack` with
an empty chord progression does not fail for any bpm, genre and duration:
`chordProgression[chordIndex % 0]` is `undefined`, `|| 'C'` falls back to
`'C'`, and every chord window of the harmony layer synthesizes the C-major
triad (261.63, 329.63, 392 Hz). -/
theorem claim_C10_theorem : ∀ (bpm : ℚ) (genre : String) (T : ℕ) (c : ChordLookup),
    c ∈ (generateProceduralBackingTrack bpm [] genre T).harmonyChords →
    c = ChordLookup.triad [26163/100, 32963/100, 392] := by
  intro bpm genre T c hc
  have hc2 : c ∈ (List.range (harmonyWindowCount bpm T)).map
      (fun k => getChordFrequencies (chordAtWindow [] k)) := hc
  rw [List.mem_map] at hc2
  obtain ⟨k, _, hck⟩ := hc2
  rw [← hck]
  rfl

/-- Claim C10, witness at bpm 120, genre Pop, duration 8 s: the empty
progression yields four C-major chord windows, and the first one is the
C-major triad. -/
theorem claim_C10_witness :
    ChordLookup.triad [26163/100, 32963/100, 392]
      ∈ (generateProceduralBackingTrack 120 [] "Pop" 8).harmonyChords ∧
    ChordLookup.triad [26163/100, 32963/100, 392]
      = ChordLookup.triad [26163/100, 32963/100, 392] := by
  have hmem : ChordLookup.triad [26163/100, 32963/100, 392]
      ∈ (generateProceduralBackingTrack 120 [] "Pop" 8).harmonyChords := by
    show ChordLookup.triad [26163/100, 32963/100, 392]
      ∈ (List.range (harmonyWindowCount 120 8)).map
          (fun k => getChordFrequencies (chordAtWindow [] k))
    refine List.mem_map.mpr ⟨0, ?_, ?_⟩
    · rw [List.mem_range]
      have h4 : harmonyWindowCount 120 8 = 4 := by with_unfolding_all rfl
      rw [h4]
      norm_num
    · rfl
  exact ⟨hmem, claim_C10_theorem 120 "Pop" 8 _ hmem⟩

end OneSound
